import Mathlib

/-!
Verification of the dev_agent orchestration core: a shallow embedding of
`src/dev_agent/tools.py` (MCPClient, BranchTracker, ToolHandler) and
`src/dev_agent/main.py` (parse_final_report, orchestrate, chat_loop),
together with theorems settling the specification claims.

JSON values produced by `json.loads` / returned by the remote service are
modelled by the inductive `JVal`; Python `int` and `float` are kept as
separate constructors (`isinstance` distinguishes them), with `ℚ` standing
in for floats (all arithmetic the code performs on them — `*1.5`, `min`,
comparison, addition — is exact on the values involved).  Python exceptions
are modelled with `Except`; wall-clock time is an explicit rational clock
advanced by the modelled `time.sleep` calls and by an oracle giving the
duration of each network call.
-/

namespace DevAgent

/-- Model of a decoded JSON value (the result of Python `json.loads` or of a
remote response).  `int` and `flt` are separated because Python
`isinstance(x, int)` vs `float` matters for argument validation. -/
inductive JVal where
  | null
  | bool (b : Bool)
  | int (n : Int)
  | flt (q : ℚ)
  | str (s : String)
  | arr (xs : List JVal)
  | obj (fields : List (String × JVal))

/-- Python `dict` lookup on a parsed-JSON object: first binding wins. -/
def dictGet : List (String × JVal) → String → Option JVal
  | [], _ => none
  | (k, v) :: rest, key => if k = key then some v else dictGet rest key

/-- Python `dict.get(key, default)`. -/
def dictGetD (fields : List (String × JVal)) (key : String) (default : JVal) : JVal :=
  (dictGet fields key).getD default

/-- Python truthiness (`bool(v)`) of a parsed-JSON value. -/
def pyFalsy : JVal → Bool
  | .null => true
  | .bool b => !b
  | .int n => n = 0
  | .flt q => q = 0
  | .str s => s = ""
  | .arr xs => xs.isEmpty
  | .obj fs => fs.isEmpty

def pyTruthy (v : JVal) : Bool := !pyFalsy v

/-- Python `a or b` on parsed-JSON values. -/
def pyOr (a b : JVal) : JVal := if pyTruthy a then a else b

/-- Python `isinstance(v, (int, float))`, returning the numeric value as a
rational.  `bool` is a subclass of `int` in Python, so booleans count. -/
def pyNum? : JVal → Option ℚ
  | .int n => some (n : ℚ)
  | .flt q => some q
  | .bool b => some (if b then 1 else 0)
  | _ => none

/-- Python `isinstance(v, int)` (including `bool`), as used by the
`num_branches` validation. -/
def pyInt? : JVal → Option Int
  | .int n => some n
  | .bool b => some (if b then 1 else 0)
  | _ => none

/-- `v` passes a Python `not v or not isinstance(v, str)` guard, i.e. `v` is a
non-empty string. -/
def strArgOk : JVal → Bool
  | .str s => s ≠ ""
  | _ => false

/-- Python `min` on rationals (`min(a, b)` returns `b` when `b < a`). -/
def pyMin (a b : ℚ) : ℚ := if b < a then b else a

/-! ## BranchTracker (tools.py lines 242-268) -/

/-- `BranchTracker`: the Branch Lineage Tracker.  Fields mirror
`_start_branch_id` / `_latest_branch_id`. -/
structure BranchTracker where
  start_branch_id : Option String
  latest_branch_id : Option String

/-- `BranchTracker.__init__(start_branch_id)`: both fields start at the seed. -/
def BranchTracker.init (seed : Option String) : BranchTracker :=
  ⟨seed, seed⟩

/-- Python truthiness of the stored optional id (`not self._start_branch_id`
is true for `None` and for the empty string). -/
def optFalsy : Option String → Bool
  | none => true
  | some s => s = ""

/-- `BranchTracker.record(branch_id)`: no-op unless the argument is a truthy
(non-empty) string; otherwise `start` is set only when currently falsy and
`latest` is overwritten unconditionally. -/
def BranchTracker.record (t : BranchTracker) (branch_id : JVal) : BranchTracker :=
  match branch_id with
  | .str s =>
    if s = "" then t
    else
      { start_branch_id := if optFalsy t.start_branch_id then some s else t.start_branch_id
        latest_branch_id := some s }
  | _ => t

/-- `BranchTracker.as_dict()`. -/
def BranchTracker.as_dict (t : BranchTracker) : List (String × Option String) :=
  [("start_branch_id", t.start_branch_id), ("latest_branch_id", t.latest_branch_id)]

/-! ## Branch-id extraction (tools.py lines 439-453) -/

/-- One pass of `_extract_branch_id`'s inner loop: for `key` in
`("branch_id", "id")`, return the value when it is a non-empty string. -/
def idFromFields (fs : List (String × JVal)) : Option String :=
  match dictGet fs "branch_id" with
  | some (.str s) => if s = "" then
      (match dictGet fs "id" with
       | some (.str s') => if s' = "" then none else some s'
       | _ => none)
    else some s
  | _ =>
    match dictGet fs "id" with
    | some (.str s') => if s' = "" then none else some s'
    | _ => none

/-- `ToolHandler._extract_branch_id(response)`: a non-empty string under
`branch_id` or `id`, or the same one level down under a `branch` sub-dict. -/
def extractBranchId : JVal → Option String
  | .obj fs =>
    match idFromFields fs with
    | some s => some s
    | none =>
      match dictGet fs "branch" with
      | some (.obj bfs) => idFromFields bfs
      | _ => none
  | _ => none

/-! ## MCPClient retry loop (tools.py lines 127-205)

The network/HTTP/decode layer is modelled by an oracle `Nat → Attempt`
giving, for each attempt index of one `_call` invocation, either a
transport-level failure (any exception raised while sending, receiving or
decoding, which Python turns into a caught-and-retried exception) or the
decoded response body. -/

/-- Outcome of one transport attempt, before the client inspects the body. -/
inductive Attempt where
  | fail (msg : String)
  | body (v : JVal)

/-- Exceptions that can escape one attempt of `MCPClient._call`. -/
inductive PyExc where
  | mcpError (payload : JVal)
  | transport (msg : String)

/-- Python `"error" in s` for a string body (substring test). -/
def strContainsError (s : String) : Bool := (s.splitOn "error").length > 1

/-- Processing of one attempt, lines 138-188: obtain the decoded body, then
`if "error" in body: raise MCPError(body["error"])`, then unwrap a `result`
member (and one nested `structuredContent` level), else return the body.
Non-dict bodies follow Python semantics of `"error" in body` / `body["error"]`
(membership on lists, substring on strings, `TypeError` otherwise). -/
def attemptEval : Attempt → Except PyExc JVal
  | .fail m => .error (.transport m)
  | .body b =>
    match b with
    | .obj fs =>
      match dictGet fs "error" with
      | some e => .error (.mcpError e)
      | none =>
        match dictGet fs "result" with
        | some r =>
          match r with
          | .obj rfs =>
            match dictGet rfs "structuredContent" with
            | some sc => .ok sc
            | none => .ok (.obj rfs)
          | _ => .ok r
        | none => .ok (.obj fs)
    | .arr xs =>
      if xs.any (fun v => match v with | .str s => s = "error" | _ => false)
      then .error (.transport "TypeError: list indices must be integers or slices, not str")
      else .ok (.arr xs)
    | .str s =>
      if strContainsError s
      then .error (.transport "TypeError: string indices must be integers")
      else .ok (.str s)
    | _ => .error (.transport "TypeError: argument of type is not iterable")

/-- Client-instance state: the auto-incrementing `_request_id` (starts at 0
at construction). -/
structure MCPState where
  request_id : Nat

/-- Result of one `_call`: the new client state, the Python-level result
(`.error` = the exception finally raised), the JSON-RPC `id` field of every
envelope POSTed (one per attempt, all built from the single `payload`
constructed before the loop), and the `time.sleep` backoff delays taken. -/
structure CallOutcome where
  state : MCPState
  result : Except PyExc JVal
  sentIds : List Nat
  sleeps : List Nat

/-- The `for attempt in range(self._max_retries)` loop of `_call`, lines
134-205.  `rid` is the id of the payload built before the loop; `i` is the
current 0-indexed attempt; the fuel is the number of attempts remaining.
On a non-final failing attempt the loop sleeps `2**attempt` and retries; the
final attempt's exception (or, when no attempt ran, `last_exception or
MCPError("Unknown MCP error")`) is raised. -/
def callLoop (attempts : Nat → Attempt) (rid i : Nat) (last : Option PyExc) :
    Nat → Except PyExc JVal × List Nat × List Nat
  | 0 => (.error (last.getD (.mcpError (.str "Unknown MCP error"))), [], [])
  | fuel + 1 =>
    match attemptEval (attempts i) with
    | .ok v => (.ok v, [rid], [])
    | .error e =>
      match fuel with
      | 0 => (.error e, [rid], [])
      | fuel' + 1 =>
        match callLoop attempts rid (i + 1) (some e) (fuel' + 1) with
        | (res, ids, sl) => (res, rid :: ids, 2 ^ i :: sl)

/-- `MCPClient._call`: increments `_request_id`, builds a single payload
carrying the new id, then runs the bounded retry loop. -/
def mcpCall (st : MCPState) (attempts : Nat → Attempt) (maxRetries : Nat) : CallOutcome :=
  let rid := st.request_id + 1
  match callLoop attempts rid 0 none maxRetries with
  | (res, ids, sl) => ⟨⟨rid⟩, res, ids, sl⟩

/-- A sequence of `_call`s on one client instance (each entry: the attempt
oracle and `max_retries` for that call), threading the instance state. -/
def runCalls (st : MCPState) : List ((Nat → Attempt) × Nat) → List CallOutcome
  | [] => []
  | spec :: rest =>
    let out := mcpCall st spec.1 spec.2
    out :: runCalls out.state rest

/-! ## Python `str()` of parsed-JSON values

Used only by `_execute_agent`'s `str(response.get("error") or response)`.
`str` of a Python string is the string itself; containers render via `repr`
(single-quoted strings, `True`/`False`/`None`).  Float rendering is
approximated by the rational's decimal form — the claims only exercise the
string case. -/

mutual

def pyRepr : JVal → String
  | .null => "None"
  | .bool true => "True"
  | .bool false => "False"
  | .int n => toString n
  | .flt q => toString q
  | .str s => "'" ++ s ++ "'"
  | .arr xs => "[" ++ pyReprList xs ++ "]"
  | .obj fs => "\x7b" ++ pyReprObj fs ++ "\x7d"

def pyReprList : List JVal → String
  | [] => ""
  | [x] => pyRepr x
  | x :: y :: rest => pyRepr x ++ ", " ++ pyReprList (y :: rest)

def pyReprObj : List (String × JVal) → String
  | [] => ""
  | [(k, v)] => "'" ++ k ++ "': " ++ pyRepr v
  | (k, v) :: p :: rest => "'" ++ k ++ "': " ++ pyRepr v ++ ", " ++ pyReprObj (p :: rest)

end

def pyStr : JVal → String
  | .str s => s
  | v => pyRepr v

/-! ## ToolHandler errors and envelopes (tools.py lines 287-318, 455-457) -/

/-- Exceptions caught by `ToolHandler.handle`: `ToolExecutionError` (the
precondition/execution errors the handler raises itself) versus any other
exception (folded into `Execution error: ...`). -/
inductive ToolErr where
  | toolExecutionError (msg : String)
  | unexpected (msg : String)

/-- The message `handle` puts in the error envelope for a caught exception. -/
def toolErrMessage : ToolErr → String
  | .toolExecutionError m => m
  | .unexpected m => "Execution error: " ++ m

/-- `ToolHandler._error(message)`. -/
def errEnvelope (message : String) : JVal :=
  .obj [("status", .str "error"), ("error", .str message)]

/-- The success envelope `{"status": "success", "data": result}`. -/
def successEnvelope (data : JVal) : JVal :=
  .obj [("status", .str "success"), ("data", data)]

/-- Message used where Python would raise an `AttributeError` for calling
`.get`/`.strip` on a non-dict / non-string (caught by `handle` as an
unexpected exception; the exact text is a stand-in for Python's). -/
def attrErr : ToolErr := .unexpected "AttributeError"

/-! ## Status poller (tools.py lines 368-421) -/

/-- Oracle for one `_check_status` run: `get_branch n` is the outcome of the
`n`-th status fetch (`.error` = an exception the call raised after its own
retries), and `get_branch_dur n` the wall-clock seconds it took. -/
structure ClientOracle where
  parallel_explore : Except String JVal
  get_branch : Nat → Except String JVal
  get_branch_dur : Nat → ℚ
  branch_read_file : Except String JVal

/-- Python `str.strip()`: drop whitespace from both ends. -/
def pyStrip (s : String) : String :=
  ⟨((s.data.dropWhile Char.isWhitespace).reverse.dropWhile Char.isWhitespace).reverse⟩

/-- Python `str.lower()` (ASCII case mapping suffices for the statuses). -/
def pyLower (s : String) : String :=
  ⟨s.data.map Char.toLower⟩

/-- `_status_lower` applied to one field value: `(value or "")` then
`.strip().lower()`.  Falsy values give `""`; a truthy non-string raises
`AttributeError`. -/
def statusLower : JVal → Except ToolErr String
  | .str s => .ok (pyLower (pyStrip s))
  | .null => .ok ""
  | .bool false => .ok ""
  | .bool true => .error attrErr
  | .int n => if n = 0 then .ok "" else .error attrErr
  | .flt q => if q = 0 then .ok "" else .error attrErr
  | .arr xs => if xs.isEmpty then .ok "" else .error attrErr
  | .obj fs => if fs.isEmpty then .ok "" else .error attrErr

/-- `_status_lower(response.get("status"))`; a non-dict response makes the
`.get` itself raise. -/
def respStatus : JVal → Except ToolErr String
  | .obj fs => statusLower (dictGetD fs "status" .null)
  | _ => .error attrErr

/-- `ToolHandler._record_branch_from_status(response)` (lines 433-437):
requires an extractable branch identifier, else raises. -/
def recordBranchFromStatus (t : BranchTracker) (response : JVal) :
    Except ToolErr BranchTracker :=
  match extractBranchId response with
  | none => .error (.toolExecutionError "Branch status response missing branch identifier.")
  | some bid => .ok (t.record (.str bid))

/-- The `ToolExecutionError` raised when the poll deadline has passed. -/
def timeoutMsg (branch_id status : String) : String :=
  "Timed out waiting for branch " ++ branch_id ++ " to finish. Last status=" ++
    (if status = "" then "unknown" else status) ++ "."

/-- The ideal poll-interval sequence: `sleep_interval` starts at the poll
interval `P` and each update is `min(sleep_interval * 1.5, max_interval)`. -/
def intervalSeq (P M : ℚ) : Nat → ℚ
  | 0 => P
  | k + 1 => pyMin (intervalSeq P M k * (3 / 2)) M

/-- Trace of one `_check_status` run: status fetches performed and the
`time.sleep` intervals taken, in order. -/
structure PollTrace where
  fetches : Nat
  sleeps : List ℚ

/-- The `while True` polling loop of `_check_status` (lines 392-421),
fuel-indexed (`none` in the first component = fuel ran out before the loop
exited; every real execution is reproduced by a large enough fuel).
`clock` models `time.monotonic()` relative to the loop start and `n` counts
fetches already performed.  Each iteration: fetch, normalize the status,
return the full response on `"succeed"`/`"failed"` after recording the
observed id, raise on a passed deadline, otherwise record, sleep, grow the
interval and loop. -/
def pollLoop (co : ClientOracle) (branch_id : String) (deadline maxI : ℚ)
    (t : BranchTracker) (clock interval : ℚ) (n : Nat) :
    Nat → Option (Except ToolErr JVal) × BranchTracker × PollTrace
  | 0 => (none, t, ⟨0, []⟩)
  | fuel + 1 =>
    match co.get_branch n with
    | .error e => (some (.error (.unexpected e)), t, ⟨1, []⟩)
    | .ok response =>
      let clock' := clock + co.get_branch_dur n
      match respStatus response with
      | .error e => (some (.error e), t, ⟨1, []⟩)
      | .ok status =>
        if status = "succeed" ∨ status = "failed" then
          match recordBranchFromStatus t response with
          | .error e => (some (.error e), t, ⟨1, []⟩)
          | .ok t' => (some (.ok response), t', ⟨1, []⟩)
        else if deadline ≤ clock' then
          (some (.error (.toolExecutionError (timeoutMsg branch_id status))), t, ⟨1, []⟩)
        else
          match recordBranchFromStatus t response with
          | .error e => (some (.error e), t, ⟨1, []⟩)
          | .ok t' =>
            match pollLoop co branch_id deadline maxI t' (clock' + interval)
                (pyMin (interval * (3 / 2)) maxI) (n + 1) fuel with
            | (res, t'', tr) => (res, t'', ⟨tr.fetches + 1, interval :: tr.sleeps⟩)

/-- `ToolHandler._check_status(arguments)`: argument validation (all before
any network traffic), then the polling loop with `deadline = timeout`,
initial `sleep_interval = poll_interval` and clock starting at 0. -/
def checkStatus (co : ClientOracle) (fuel : Nat) (t : BranchTracker) (args : JVal) :
    Option (Except ToolErr JVal) × BranchTracker × PollTrace :=
  match args with
  | .obj fs =>
    match dictGetD fs "branch_id" .null with
    | .str bid =>
      if bid = "" then
        (some (.error (.toolExecutionError "`branch_id` string argument is required.")), t, ⟨0, []⟩)
      else
        match pyNum? (dictGetD fs "timeout_seconds" (.int 1800)) with
        | none =>
          (some (.error (.toolExecutionError "`timeout_seconds` must be a positive number if provided.")), t, ⟨0, []⟩)
        | some T =>
          if T ≤ 0 then
            (some (.error (.toolExecutionError "`timeout_seconds` must be a positive number if provided.")), t, ⟨0, []⟩)
          else
            match pyNum? (dictGetD fs "poll_interval_seconds" (.flt 3)) with
            | none =>
              (some (.error (.toolExecutionError "`poll_interval_seconds` must be a positive number if provided.")), t, ⟨0, []⟩)
            | some P =>
              if P ≤ 0 then
                (some (.error (.toolExecutionError "`poll_interval_seconds` must be a positive number if provided.")), t, ⟨0, []⟩)
              else
                match pyNum? (dictGetD fs "max_poll_interval_seconds" (.flt 30)) with
                | none =>
                  (some (.error (.toolExecutionError "`max_poll_interval_seconds` must be a number >= poll_interval_seconds.")), t, ⟨0, []⟩)
                | some M =>
                  if M < P then
                    (some (.error (.toolExecutionError "`max_poll_interval_seconds` must be a number >= poll_interval_seconds.")), t, ⟨0, []⟩)
                  else
                    pollLoop co bid T M t 0 P 0 fuel
    | _ =>
      (some (.error (.toolExecutionError "`branch_id` string argument is required.")), t, ⟨0, []⟩)
  | _ => (some (.error attrErr), t, ⟨0, []⟩)

/-! ## Launch and artifact operations (tools.py lines 325-366, 423-431) -/

/-- `ToolHandler` construction-time configuration. -/
structure HandlerCfg where
  default_project_name : Option String
  max_branches : Int

/-- The JVal the handler sees for `self._default_project_name` in
`arguments.get("project_name") or self._default_project_name`. -/
def optStrVal : Option String → JVal
  | none => .null
  | some s => .str s

/-- `ToolHandler._execute_agent(arguments)`: validate the five arguments,
launch via `parallel_explore`, reject responses carrying `error`/`isError`,
extract the primary branch id from `branches[0]`, record it and return
`{"parallel_explore": response, "branch_id": branch_id}`. -/
def executeAgent (cfg : HandlerCfg) (co : ClientOracle) (t : BranchTracker)
    (args : JVal) : Except ToolErr JVal × BranchTracker :=
  match args with
  | .obj fs =>
    let agent := dictGetD fs "agent" .null
    let prompt := dictGetD fs "prompt" .null
    let project_name := pyOr (dictGetD fs "project_name" .null) (optStrVal cfg.default_project_name)
    let parent_branch_id := dictGetD fs "parent_branch_id" .null
    let num_branches := dictGetD fs "num_branches" (.int 1)
    if ¬ strArgOk agent then
      (.error (.toolExecutionError "`agent` string argument is required."), t)
    else if ¬ strArgOk prompt then
      (.error (.toolExecutionError "`prompt` string argument is required."), t)
    else if ¬ strArgOk parent_branch_id then
      (.error (.toolExecutionError "`parent_branch_id` string argument is required."), t)
    else if ¬ strArgOk project_name then
      (.error (.toolExecutionError "`project_name` string argument is required or set via config."), t)
    else
      match pyInt? num_branches with
      | none =>
        (.error (.toolExecutionError ("`num_branches` must be an integer between 1 and " ++ toString cfg.max_branches ++ ".")), t)
      | some nb =>
        if nb < 1 ∨ cfg.max_branches < nb then
          (.error (.toolExecutionError ("`num_branches` must be an integer between 1 and " ++ toString cfg.max_branches ++ ".")), t)
        else
          match co.parallel_explore with
          | .error e => (.error (.unexpected e), t)
          | .ok response =>
            match response with
            | .obj rfs =>
              if (dictGet rfs "error").isSome ∨ pyTruthy (dictGetD rfs "isError" .null) then
                (.error (.toolExecutionError (pyStr (pyOr (dictGetD rfs "error" .null) (.obj rfs)))), t)
              else
                let branches := dictGetD rfs "branches" .null
                let primary := match branches with
                  | .arr (x :: _) => x
                  | _ => .null
                match extractBranchId (pyOr primary (.obj [])) with
                | none =>
                  (.error (.toolExecutionError "Missing branch id in parallel_explore response."), t)
                | some bid =>
                  (.ok (.obj [("parallel_explore", .obj rfs), ("branch_id", .str bid)]),
                   t.record (.str bid))
            | _ =>
              match extractBranchId (.obj []) with
              | none =>
                (.error (.toolExecutionError "Missing branch id in parallel_explore response."), t)
              | some bid =>
                (.ok (.obj [("parallel_explore", response), ("branch_id", .str bid)]),
                 t.record (.str bid))
  | _ => (.error attrErr, t)

/-- `ToolHandler._read_artifact(arguments)`. -/
def readArtifact (co : ClientOracle) (t : BranchTracker) (args : JVal) :
    Except ToolErr JVal × BranchTracker :=
  match args with
  | .obj fs =>
    if ¬ strArgOk (dictGetD fs "branch_id" .null) then
      (.error (.toolExecutionError "`branch_id` string argument is required."), t)
    else if ¬ strArgOk (dictGetD fs "path" .null) then
      (.error (.toolExecutionError "`path` string argument is required."), t)
    else
      match co.branch_read_file with
      | .error e => (.error (.unexpected e), t)
      | .ok v => (.ok v, t)
  | _ => (.error attrErr, t)

/-! ## Tool dispatch (tools.py lines 287-318) -/

/-- The outcome of `json.loads` on the tool call's argument text
(`arguments_payload or "{}"`); `json` is Python stdlib, modelled by its
result. -/
inductive ArgsParse where
  | parsed (v : JVal)
  | jsonError (msg : String)

/-- `ToolHandler.handle(tool_call)`: never lets an exception escape — every
failure path is folded into the `{status: error, error: message}` envelope.
Returns the envelope plus the (possibly advanced) tracker state; `none` is
only the fuel artifact of the inner polling loop. -/
def ToolHandler.handle (cfg : HandlerCfg) (co : ClientOracle) (fuel : Nat)
    (t : BranchTracker) (name : Option String) (args : ArgsParse) :
    Option (JVal × BranchTracker) :=
  match name with
  | none => some (errEnvelope "Missing tool name in call.", t)
  | some n =>
    if n = "" then some (errEnvelope "Missing tool name in call.", t)
    else
      match args with
      | .jsonError e => some (errEnvelope ("Invalid JSON arguments: " ++ e), t)
      | .parsed arguments =>
        if n = "execute_agent" then
          match executeAgent cfg co t arguments with
          | (.ok v, t') => some (successEnvelope v, t')
          | (.error e, t') => some (errEnvelope (toolErrMessage e), t')
        else if n = "check_status" then
          match checkStatus co fuel t arguments with
          | (none, _, _) => none
          | (some (.ok v), t', _) => some (successEnvelope v, t')
          | (some (.error e), t', _) => some (errEnvelope (toolErrMessage e), t')
        else if n = "read_artifact" then
          match readArtifact co t arguments with
          | (.ok v, t') => some (successEnvelope v, t')
          | (.error e, t') => some (errEnvelope (toolErrMessage e), t')
        else
          some (errEnvelope ("Unsupported tool: " ++ n), t)

/-! ## Conversation loop (main.py lines 201-334) -/

/-- One tool-call request attached to an assistant reply (`id`, `type`,
`function.name`, `function.arguments`, the latter by its parse outcome). -/
structure PyToolCall where
  id : String
  type : String
  fname : Option String
  fargs : ArgsParse

/-- The textual content of an assistant reply: either falsy (`None`/`""`) or
a non-empty text together with its `json.loads` outcome (`none` = the text is
not valid JSON). -/
inductive PyContent where
  | empty
  | text (raw : String) (parsed : Option JVal)

/-- An assistant reply as returned by the completion endpoint. -/
structure AssistantMsg where
  content : PyContent
  tool_calls : List PyToolCall

/-- A conversation turn; the `tool` turn stores the ToolResult (serialized
with `json.dumps` at the API boundary). -/
inductive Turn where
  | system (content : String)
  | user (content : String)
  | assistant (msg : AssistantMsg)
  | tool (tool_call_id : String) (result : JVal)

/-- `parse_final_report(message)` (main.py lines 221-234): falsy content,
unparseable content, a non-dict value, or a `type` other than the literal
`"final_report"` all yield `None`; otherwise the parsed object itself. -/
def parse_final_report (m : AssistantMsg) : Option JVal :=
  match m.content with
  | .empty => none
  | .text _ parsed =>
    match parsed with
    | none => none
    | some payload =>
      match payload with
      | .obj fs =>
        match dictGetD fs "type" .null with
        | .str s => if s = "final_report" then some (.obj fs) else none
        | _ => none
      | _ => none

/-- `MAX_ITERATIONS` (main.py line 25). -/
def MAX_ITERATIONS : Nat := 20

/-- The `for tool_call in tool_calls` dispatch block shared by both loops:
run the handler on each requested call and append a `tool` turn per result.
The dispatcher is abstracted as any total state-passing function — the
repository instance is `ToolHandler.handle` (total by claim C3). -/
def dispatchAll {σ : Type} (handler : σ → PyToolCall → JVal × σ) :
    σ → List Turn → List PyToolCall → σ × List Turn
  | h, msgs, [] => (h, msgs)
  | h, msgs, tc :: rest =>
    match handler h tc with
    | (result, h') => dispatchAll handler h' (msgs ++ [Turn.tool tc.id result]) rest

/-- The body of `orchestrate` (main.py lines 237-270) from iteration `i` with
a given number of remaining iterations: complete, append the assistant turn,
dispatch any requested tool calls and continue, otherwise terminate on a
truthy parsed final report; the cap exhausting returns `None`.  The
completion endpoint is an oracle from the iteration number to the reply. -/
def orchestrateFrom {σ : Type} (brain : Nat → AssistantMsg)
    (handler : σ → PyToolCall → JVal × σ) :
    Nat → Nat → σ → List Turn → Option JVal
  | _, 0, _, _ => none
  | i, r + 1, h, msgs =>
    let choice := brain i
    let msgs1 := msgs ++ [Turn.assistant choice]
    match choice.tool_calls with
    | [] =>
      match parse_final_report choice with
      | some fr =>
        if pyTruthy fr then some fr
        else orchestrateFrom brain handler (i + 1) r h msgs1
      | none => orchestrateFrom brain handler (i + 1) r h msgs1
    | tc :: rest =>
      match dispatchAll handler h msgs1 (tc :: rest) with
      | (h', msgs2) => orchestrateFrom brain handler (i + 1) r h' msgs2

/-- `orchestrate(brain, handler, messages)`: the headless loop over
`range(1, MAX_ITERATIONS + 1)`. -/
def orchestrate {σ : Type} (brain : Nat → AssistantMsg)
    (handler : σ → PyToolCall → JVal × σ) (h : σ) (msgs : List Turn) : Option JVal :=
  orchestrateFrom brain handler 1 MAX_ITERATIONS h msgs

/-- The body of `chat_loop` (main.py lines 273-334) from iteration `i`: the
interactive variant differs from `orchestrate` only in its printing, which
has no effect on state, so the control algorithm is the same. -/
def chatLoopFrom {σ : Type} (brain : Nat → AssistantMsg)
    (handler : σ → PyToolCall → JVal × σ) :
    Nat → Nat → σ → List Turn → Option JVal
  | _, 0, _, _ => none
  | i, r + 1, h, msgs =>
    let choice := brain i
    let msgs1 := msgs ++ [Turn.assistant choice]
    match choice.tool_calls with
    | [] =>
      match parse_final_report choice with
      | some fr =>
        if pyTruthy fr then some fr
        else chatLoopFrom brain handler (i + 1) r h msgs1
      | none => chatLoopFrom brain handler (i + 1) r h msgs1
    | tc :: rest =>
      match dispatchAll handler h msgs1 (tc :: rest) with
      | (h', msgs2) => chatLoopFrom brain handler (i + 1) r h' msgs2

/-- `chat_loop(brain, handler, messages, max_iterations)`. -/
def chat_loop {σ : Type} (brain : Nat → AssistantMsg)
    (handler : σ → PyToolCall → JVal × σ) (h : σ) (msgs : List Turn)
    (max_iterations : Nat) : Option JVal :=
  chatLoopFrom brain handler 1 max_iterations h msgs

/-! ## Concrete fixtures used by counterexamples and witnesses -/

/-- A status response whose normalized status is `"succeeded"`. -/
def respSucceeded : JVal := .obj [("status", .str "succeeded"), ("branch_id", .str "B1")]

/-- Oracle whose status endpoint always answers `respSucceeded`, each fetch
taking 10 seconds. -/
def oracleSucceeded : ClientOracle :=
  { parallel_explore := .error "unused"
    get_branch := fun _ => .ok respSucceeded
    get_branch_dur := fun _ => 10
    branch_read_file := .error "unused" }

/-- `check_status` arguments: branch `b-1`, timeout 5s, poll 2s, max 30s. -/
def argsTimeout5 : JVal := .obj
  [("branch_id", .str "b-1"), ("timeout_seconds", .int 5),
   ("poll_interval_seconds", .int 2), ("max_poll_interval_seconds", .int 30)]

/-- A status response whose normalized status is the terminal `"succeed"`. -/
def respSucceed : JVal := .obj [("status", .str " SUCCEED "), ("branch_id", .str "B7")]

/-- Oracle whose status endpoint always answers `respSucceed` instantly. -/
def oracleSucceed : ClientOracle :=
  { parallel_explore := .error "unused"
    get_branch := fun _ => .ok respSucceed
    get_branch_dur := fun _ => 0
    branch_read_file := .error "unused" }

/-- Attempt oracle whose every attempt decodes to a body carrying an
`error` member. -/
def attemptsProtocolError : Nat → Attempt :=
  fun _ => .body (.obj [("error", .str "boom")])

/-- Remote launch that answers `{"error": "quota exceeded"}`. -/
def oracleQuota : ClientOracle :=
  { parallel_explore := .ok (.obj [("error", .str "quota exceeded")])
    get_branch := fun _ => .error "unused"
    get_branch_dur := fun _ => 0
    branch_read_file := .error "unused" }

/-- Valid `execute_agent` arguments. -/
def launchArgs : JVal := .obj
  [("agent", .str "claude_code"), ("prompt", .str "do it"),
   ("parent_branch_id", .str "P1"), ("project_name", .str "proj")]

/-- Remote launch that answers `{"branches": [{"branch_id": "B1"}]}`. -/
def oracleBranchB1 : ClientOracle :=
  { parallel_explore := .ok (.obj [("branches", .arr [.obj [("branch_id", .str "B1")]])])
    get_branch := fun _ => .error "unused"
    get_branch_dur := fun _ => 0
    branch_read_file := .error "unused" }

/-- A status response that is still running and carries a branch id. -/
def respRunning : JVal := .obj [("status", .str "running"), ("branch_id", .str "X")]

/-- Oracle whose status endpoint always answers `respRunning` instantly. -/
def oracleRunning : ClientOracle :=
  { parallel_explore := .error "unused"
    get_branch := fun _ => .ok respRunning
    get_branch_dur := fun _ => 0
    branch_read_file := .error "unused" }

/-- A status response with a terminal status but no extractable branch id. -/
def respNoId : JVal := .obj [("status", .str "failed"), ("detail", .str "gone")]

/-- Oracle whose status endpoint always answers `respNoId` instantly. -/
def oracleNoId : ClientOracle :=
  { parallel_explore := .error "unused"
    get_branch := fun _ => .ok respNoId
    get_branch_dur := fun _ => 0
    branch_read_file := .error "unused" }

/-- `check_status` arguments with `poll_interval_seconds=10` larger than
`max_poll_interval_seconds=5`. -/
def argsBadMax : JVal := .obj
  [("branch_id", .str "b-2"), ("poll_interval_seconds", .int 10),
   ("max_poll_interval_seconds", .int 5)]

/-- Two `_call` specifications (attempt oracle and `max_retries`) for one
client instance: a first call succeeding immediately, a second one
succeeding on the second attempt. -/
def twoCallSpecs : List ((Nat → Attempt) × Nat) :=
  [(fun _ => .body (.obj [("result", .str "ok1")]), 3),
   (fun i => if i = 0 then .fail "boom" else .body (.obj [("result", .str "ok2")]), 3)]

/-- An assistant reply carrying a final report and no tool calls. -/
def finalReportMsg : AssistantMsg :=
  { content := .text "\x7b\"type\":\"final_report\",\"task\":\"t\",\"summary\":\"s\"\x7d"
      (some (.obj [("type", .str "final_report"), ("task", .str "t"), ("summary", .str "s")]))
    tool_calls := [] }

/-- An assistant reply whose content is a final report but which also
requests a tool call. -/
def reportWithToolCallMsg : AssistantMsg :=
  { content := .text "\x7b\"type\":\"final_report\",\"task\":\"t\",\"summary\":\"s\"\x7d"
      (some (.obj [("type", .str "final_report"), ("task", .str "t"), ("summary", .str "s")]))
    tool_calls := [⟨"call_1", "function", some "read_artifact", .parsed (.obj [])⟩] }

/-- A completion oracle: iteration 1 requests a tool call, iteration 2
produces the final report. -/
def brainScript : Nat → AssistantMsg :=
  fun i => if i = 1 then reportWithToolCallMsg else finalReportMsg

/-- A trivial total dispatcher used to exercise the loop theorems. -/
def constHandler : Unit → PyToolCall → JVal × Unit :=
  fun _ _ => (errEnvelope "nope", ())

/-! # Theorems -/

section ClaimTheorems

attribute [local semireducible] Rat.mul Rat.add Rat.inv Rat.sub

/-! ## Branch Lineage Tracker -/

theorem record_start_stable (t : BranchTracker) (a : String)
    (hs : t.start_branch_id = some a) (ha : a ≠ "") (v : JVal) :
    (t.record v).start_branch_id = some a := by
  cases v with
  | str s =>
    by_cases h : s = "" <;> simp [BranchTracker.record, h, optFalsy, hs, ha]
  | null => exact hs
  | bool b => exact hs
  | int n => exact hs
  | flt q => exact hs
  | arr xs => exact hs
  | obj fs => exact hs

theorem foldl_record_start_stable (vs : List JVal) (t : BranchTracker) (a : String)
    (hs : t.start_branch_id = some a) (ha : a ≠ "") :
    (vs.foldl BranchTracker.record t).start_branch_id = some a := by
  induction vs generalizing t with
  | nil => exact hs
  | cons v rest ih =>
    exact ih (t.record v) (record_start_stable t a hs ha v)

/-- C6: a tracker created without a seed treats `record` of an empty or
non-string id as a no-op; otherwise `latest` is always overwritten while
`start` is set only when unset, so after `record a; record b` (both
non-empty) `start = a`, `latest = b`, and no later `record` ever changes
`start` again. -/
theorem c6_tracker_start_stable (a b : String) (ha : a ≠ "") (hb : b ≠ "") :
    (((BranchTracker.init none).record (.str a)).record (.str b)).start_branch_id = some a ∧
    (((BranchTracker.init none).record (.str a)).record (.str b)).latest_branch_id = some b ∧
    (∀ vs : List JVal,
      (vs.foldl BranchTracker.record
        (((BranchTracker.init none).record (.str a)).record (.str b))).start_branch_id = some a) ∧
    (∀ t : BranchTracker, t.record (.str "") = t) ∧
    (∀ (t : BranchTracker) (v : JVal), (∀ s, v ≠ .str s) → t.record v = t) ∧
    (∀ (t : BranchTracker) (s : String), s ≠ "" →
      (t.record (.str s)).latest_branch_id = some s ∧
      (t.record (.str s)).start_branch_id =
        (if optFalsy t.start_branch_id then some s else t.start_branch_id)) := by
  have hstart :
      (((BranchTracker.init none).record (.str a)).record (.str b)).start_branch_id = some a := by
    simp [BranchTracker.init, BranchTracker.record, optFalsy, ha, hb]
  refine ⟨hstart, ?_, ?_, ?_, ?_, ?_⟩
  · simp [BranchTracker.init, BranchTracker.record, optFalsy, ha, hb]
  · intro vs
    exact foldl_record_start_stable vs _ a hstart ha
  · intro t
    simp [BranchTracker.record]
  · intro t v hv
    cases v with
    | str s => exact absurd rfl (hv s)
    | null => rfl
    | bool c => rfl
    | int n => rfl
    | flt q => rfl
    | arr xs => rfl
    | obj fs => rfl
  · intro t s hs
    constructor <;> simp [BranchTracker.record, hs]

/-- C6 witness at `a = "b-100"`, `b = "b-200"` and one further record. -/
theorem c6_witness :
    ("b-100" : String) ≠ "" ∧ ("b-200" : String) ≠ "" ∧
    (((BranchTracker.init none).record (.str "b-100")).record
        (.str "b-200")).start_branch_id = some "b-100" ∧
    ([JVal.str "b-300"].foldl BranchTracker.record
      (((BranchTracker.init none).record (.str "b-100")).record
        (.str "b-200"))).start_branch_id = some "b-100" := by
  have h := c6_tracker_start_stable "b-100" "b-200" (by decide) (by decide)
  exact ⟨by decide, by decide, h.1, h.2.2.1 [JVal.str "b-300"]⟩

/-! ## Launch operation: branch-id extraction -/

/-- C5: a launch whose remote response does not signal an error takes its
primary identifier from `branches[0]` via `branch_id`, then `id`, including
one nesting level under `branch`; no extractable non-empty string is an
execution error, otherwise the id is recorded and returned next to the raw
response. -/
theorem c5_branch_id_extraction (cfg : HandlerCfg) (co : ClientOracle)
    (t : BranchTracker) (fs rfs : List (String × JVal)) (nb : Int)
    (hagent : strArgOk (dictGetD fs "agent" .null) = true)
    (hprompt : strArgOk (dictGetD fs "prompt" .null) = true)
    (hparent : strArgOk (dictGetD fs "parent_branch_id" .null) = true)
    (hproj : strArgOk (pyOr (dictGetD fs "project_name" .null)
      (optStrVal cfg.default_project_name)) = true)
    (hnum : pyInt? (dictGetD fs "num_branches" (.int 1)) = some nb)
    (hnb : ¬ (nb < 1 ∨ cfg.max_branches < nb))
    (hresp : co.parallel_explore = .ok (.obj rfs))
    (hnoerr : dictGet rfs "error" = none)
    (hnoflag : pyTruthy (dictGetD rfs "isError" .null) = false) :
    (∀ b : String,
      extractBranchId (pyOr
        (match dictGetD rfs "branches" .null with
         | .arr (x :: _) => x
         | _ => .null) (.obj [])) = some b →
      executeAgent cfg co t (.obj fs) =
        (.ok (.obj [("parallel_explore", .obj rfs), ("branch_id", .str b)]),
         t.record (.str b))) ∧
    (extractBranchId (pyOr
        (match dictGetD rfs "branches" .null with
         | .arr (x :: _) => x
         | _ => .null) (.obj [])) = none →
      executeAgent cfg co t (.obj fs) =
        (.error (.toolExecutionError "Missing branch id in parallel_explore response."), t)) ∧
    extractBranchId (.obj [("branch_id", .str "B1")]) = some "B1" ∧
    extractBranchId (.obj [("id", .str "X9"), ("branch", .obj [("branch_id", .str "Y9")])]) =
      some "X9" ∧
    extractBranchId (.obj [("branch", .obj [("id", .str "Z9")])]) = some "Z9" ∧
    extractBranchId (.obj [("branch_id", .str ""), ("id", .str "I2")]) = some "I2" := by
  refine ⟨?_, ?_, rfl, rfl, rfl, rfl⟩
  · intro b hb
    simp only [executeAgent, hagent, hprompt, hparent, hproj, hnum, hresp, hnoerr, hnoflag,
      hnb, if_neg, Bool.not_true, Bool.false_eq_true, if_false, hb]
    simp [hnoerr, hnoflag, hb]
  · intro hb
    simp only [executeAgent, hagent, hprompt, hparent, hproj, hnum, hresp, hnoerr, hnoflag,
      hnb, if_neg, Bool.not_true, Bool.false_eq_true, if_false, hb]
    simp [hnoerr, hnoflag, hb]

/-- C5 witness: the spec's example `{"branches":[{"branch_id":"B1"}]}`. -/
theorem c5_witness :
    executeAgent ⟨some "proj", 4⟩ oracleBranchB1 (BranchTracker.init none) launchArgs =
      (.ok (.obj [("parallel_explore",
          .obj [("branches", .arr [.obj [("branch_id", .str "B1")]])]),
        ("branch_id", .str "B1")]),
       (BranchTracker.init none).record (.str "B1")) :=
  (c5_branch_id_extraction ⟨some "proj", 4⟩ oracleBranchB1 (BranchTracker.init none)
    [("agent", .str "claude_code"), ("prompt", .str "do it"),
     ("parent_branch_id", .str "P1"), ("project_name", .str "proj")]
    [("branches", .arr [.obj [("branch_id", .str "B1")]])] 1
    rfl rfl rfl rfl rfl (by decide) rfl rfl rfl).1 "B1" rfl

/-! ## Tool dispatch: total, uniform envelopes -/

theorem handle_envelope_shape (cfg : HandlerCfg) (co : ClientOracle) (fuel : Nat)
    (t : BranchTracker) (name : Option String) (args : ArgsParse)
    (p : JVal × BranchTracker)
    (hp : ToolHandler.handle cfg co fuel t name args = some p) :
    (∃ d, p.1 = successEnvelope d) ∨ (∃ m, p.1 = errEnvelope m) := by
  cases name with
  | none =>
    obtain rfl := Option.some.inj hp
    exact Or.inr ⟨_, rfl⟩
  | some s =>
    by_cases hs : s = ""
    · simp only [ToolHandler.handle, if_pos hs] at hp
      obtain rfl := Option.some.inj hp
      exact Or.inr ⟨_, rfl⟩
    · simp only [ToolHandler.handle, if_neg hs] at hp
      cases args with
      | jsonError e =>
        obtain rfl := Option.some.inj hp
        exact Or.inr ⟨_, rfl⟩
      | parsed v =>
        by_cases h1 : s = "execute_agent"
        · simp only [if_pos h1] at hp
          rcases hexe : executeAgent cfg co t v with ⟨res, t2⟩
          rw [hexe] at hp
          cases res with
          | ok d => obtain rfl := Option.some.inj hp; exact Or.inl ⟨_, rfl⟩
          | error e => obtain rfl := Option.some.inj hp; exact Or.inr ⟨_, rfl⟩
        · simp only [if_neg h1] at hp
          by_cases h2 : s = "check_status"
          · simp only [if_pos h2] at hp
            rcases hcs : checkStatus co fuel t v with ⟨res, t2, tr⟩
            rw [hcs] at hp
            cases res with
            | none => cases hp
            | some r =>
              cases r with
              | ok d => obtain rfl := Option.some.inj hp; exact Or.inl ⟨_, rfl⟩
              | error e => obtain rfl := Option.some.inj hp; exact Or.inr ⟨_, rfl⟩
          · simp only [if_neg h2] at hp
            by_cases h3 : s = "read_artifact"
            · simp only [if_pos h3] at hp
              rcases hra : readArtifact co t v with ⟨res, t2⟩
              rw [hra] at hp
              cases res with
              | ok d => obtain rfl := Option.some.inj hp; exact Or.inl ⟨_, rfl⟩
              | error e => obtain rfl := Option.some.inj hp; exact Or.inr ⟨_, rfl⟩
            · simp only [if_neg h3] at hp
              obtain rfl := Option.some.inj hp
              exact Or.inr ⟨_, rfl⟩

/-- C3: `ToolHandler.handle` never raises — every terminating run produces
either the success envelope or the `{status: error, error: message}`
envelope; in particular a launch answered by `{"error": "quota exceeded"}`
yields `{"status":"error","error":"quota exceeded"}` and records nothing. -/
theorem c3_handle_total_envelope :
    (∀ (cfg : HandlerCfg) (co : ClientOracle) (fuel : Nat) (t : BranchTracker)
        (name : Option String) (args : ArgsParse) (env : JVal) (t' : BranchTracker),
      ToolHandler.handle cfg co fuel t name args = some (env, t') →
      (∃ d, env = successEnvelope d) ∨ (∃ m, env = errEnvelope m)) ∧
    (∀ (cfg : HandlerCfg) (co : ClientOracle) (fuel : Nat) (t : BranchTracker),
      co.parallel_explore = .ok (.obj [("error", .str "quota exceeded")]) →
      1 ≤ cfg.max_branches →
      ToolHandler.handle cfg co fuel t (some "execute_agent") (.parsed launchArgs) =
        some (errEnvelope "quota exceeded", t)) := by
  constructor
  · intro cfg co fuel t name args env t' h
    exact handle_envelope_shape cfg co fuel t name args (env, t') h
  · intro cfg co fuel t hq hmax
    have h1 : ¬ (cfg.max_branches < 1) := not_lt.mpr hmax
    simp +decide [ToolHandler.handle, executeAgent, launchArgs, hq, h1, pyStr, pyOr,
      pyTruthy, pyFalsy, toolErrMessage, dictGetD, dictGet, pyInt?, strArgOk, optStrVal]

/-- C3 witness: the quota example, then the envelope-shape part applied to
its output. -/
theorem c3_witness :
    (ToolHandler.handle ⟨some "proj", 4⟩ oracleQuota 5 (BranchTracker.init none)
        (some "execute_agent") (.parsed launchArgs) =
      some (errEnvelope "quota exceeded", BranchTracker.init none)) ∧
    ((∃ d, errEnvelope "quota exceeded" = successEnvelope d) ∨
     (∃ m, errEnvelope "quota exceeded" = errEnvelope m)) := by
  have h2 := c3_handle_total_envelope.2 ⟨some "proj", 4⟩ oracleQuota 5
    (BranchTracker.init none) rfl (by decide)
  exact ⟨h2, c3_handle_total_envelope.1 ⟨some "proj", 4⟩ oracleQuota 5
    (BranchTracker.init none) (some "execute_agent") (.parsed launchArgs) _ _ h2⟩

/-! ## Status operation: argument validation -/

/-- C8: with a valid `branch_id`, a `timeout_seconds` or
`poll_interval_seconds` that is not a positive number, or a
`max_poll_interval_seconds` smaller than `poll_interval_seconds`, makes
`_check_status` raise a `ToolExecutionError` with zero status fetches — the
validation happens before any `get_branch` call. -/
theorem c8_validation_before_network (co : ClientOracle) (fuel : Nat)
    (t : BranchTracker) (fs : List (String × JVal)) (bid : String)
    (hbid : dictGetD fs "branch_id" .null = .str bid) (hbid' : bid ≠ "")
    (hbad :
      (∀ q, pyNum? (dictGetD fs "timeout_seconds" (.int 1800)) = some q → q ≤ 0) ∨
      (∀ q, pyNum? (dictGetD fs "poll_interval_seconds" (.flt 3)) = some q → q ≤ 0) ∨
      (∃ qP qM, pyNum? (dictGetD fs "poll_interval_seconds" (.flt 3)) = some qP ∧
        pyNum? (dictGetD fs "max_poll_interval_seconds" (.flt 30)) = some qM ∧ qM < qP)) :
    ∃ msg, checkStatus co fuel t (.obj fs) =
      (some (.error (.toolExecutionError msg)), t, ⟨0, []⟩) := by
  rcases hT : pyNum? (dictGetD fs "timeout_seconds" (.int 1800)) with _ | T
  · exact ⟨"`timeout_seconds` must be a positive number if provided.",
      by simp [checkStatus, hbid, hbid', hT]⟩
  · by_cases hT0 : T ≤ 0
    · exact ⟨"`timeout_seconds` must be a positive number if provided.",
        by simp [checkStatus, hbid, hbid', hT, hT0]⟩
    · rcases hP : pyNum? (dictGetD fs "poll_interval_seconds" (.flt 3)) with _ | P
      · exact ⟨"`poll_interval_seconds` must be a positive number if provided.",
          by simp [checkStatus, hbid, hbid', hT, hT0, hP]⟩
      · by_cases hP0 : P ≤ 0
        · exact ⟨"`poll_interval_seconds` must be a positive number if provided.",
            by simp [checkStatus, hbid, hbid', hT, hT0, hP, hP0]⟩
        · rcases hM : pyNum? (dictGetD fs "max_poll_interval_seconds" (.flt 30)) with _ | M
          · exact ⟨"`max_poll_interval_seconds` must be a number >= poll_interval_seconds.",
              by simp [checkStatus, hbid, hbid', hT, hT0, hP, hP0, hM]⟩
          · have hMP : M < P := by
              rcases hbad with h | h | h
              · exact absurd (h T hT) hT0
              · exact absurd (h P hP) hP0
              · obtain ⟨qP, qM, hqP, hqM, hlt⟩ := h
                rw [hP] at hqP
                rw [hM] at hqM
                obtain rfl := Option.some.inj hqP
                obtain rfl := Option.some.inj hqM
                exact hlt
            exact ⟨"`max_poll_interval_seconds` must be a number >= poll_interval_seconds.",
              by simp [checkStatus, hbid, hbid', hT, hT0, hP, hP0, hM, hMP]⟩

/-- C8 witness: `poll_interval_seconds=10`, `max_poll_interval_seconds=5`. -/
theorem c8_witness :
    ∃ msg, checkStatus oracleRunning 7 (BranchTracker.init none) argsBadMax =
      (some (.error (.toolExecutionError msg)), BranchTracker.init none, ⟨0, []⟩) :=
  c8_validation_before_network oracleRunning 7 (BranchTracker.init none)
    [("branch_id", .str "b-2"), ("poll_interval_seconds", .int 10),
     ("max_poll_interval_seconds", .int 5)] "b-2" rfl (by decide)
    (Or.inr (Or.inr ⟨10, 5, rfl, rfl, by norm_num⟩))

/-! ## Status responses must carry an identifier -/

/-- `_check_status` with all validations passing reduces to the polling
loop. -/
theorem checkStatus_valid (co : ClientOracle) (fuel : Nat) (t : BranchTracker)
    (fs : List (String × JVal)) (bid : String) (T P M : ℚ)
    (hbid : dictGetD fs "branch_id" .null = .str bid) (hbid' : bid ≠ "")
    (hT : pyNum? (dictGetD fs "timeout_seconds" (.int 1800)) = some T) (hT0 : ¬ T ≤ 0)
    (hP : pyNum? (dictGetD fs "poll_interval_seconds" (.flt 3)) = some P) (hP0 : ¬ P ≤ 0)
    (hM : pyNum? (dictGetD fs "max_poll_interval_seconds" (.flt 30)) = some M)
    (hMP : ¬ M < P) :
    checkStatus co fuel t (.obj fs) = pollLoop co bid T M t 0 P 0 fuel := by
  simp [checkStatus, hbid, hbid', hT, hT0, hP, hP0, hM, hMP]

/-- C10: a fetched status response with no extractable branch identifier
makes the whole operation fail (never return the response) — and on a
terminal status the failure is precisely the missing-identifier
`ToolExecutionError`, surfaced by `handle` as the uniform error envelope. -/
theorem c10_status_requires_id (co : ClientOracle) (r : JVal) (s : String)
    (h2 : respStatus r = .ok s) (h3 : extractBranchId r = none) :
    (∀ (bid : String) (deadline maxI : ℚ) (t : BranchTracker)
        (clock interval : ℚ) (n f : Nat),
      co.get_branch n = .ok r →
      ∃ e, pollLoop co bid deadline maxI t clock interval n (f + 1) =
        (some (.error e), t, ⟨1, []⟩)) ∧
    (∀ (bid : String) (deadline maxI : ℚ) (t : BranchTracker)
        (clock interval : ℚ) (n f : Nat),
      co.get_branch n = .ok r → (s = "succeed" ∨ s = "failed") →
      pollLoop co bid deadline maxI t clock interval n (f + 1) =
        (some (.error (.toolExecutionError "Branch status response missing branch identifier.")),
         t, ⟨1, []⟩)) ∧
    (∀ (cfg : HandlerCfg) (fs : List (String × JVal)) (bid : String) (T P M : ℚ)
        (f : Nat) (t : BranchTracker),
      co.get_branch 0 = .ok r →
      dictGetD fs "branch_id" .null = .str bid → bid ≠ "" →
      pyNum? (dictGetD fs "timeout_seconds" (.int 1800)) = some T → ¬ T ≤ 0 →
      pyNum? (dictGetD fs "poll_interval_seconds" (.flt 3)) = some P → ¬ P ≤ 0 →
      pyNum? (dictGetD fs "max_poll_interval_seconds" (.flt 30)) = some M → ¬ M < P →
      ∃ msg, ToolHandler.handle cfg co (f + 1) t (some "check_status") (.parsed (.obj fs)) =
        some (errEnvelope msg, t)) := by
  have step : ∀ (bid : String) (deadline maxI : ℚ) (t : BranchTracker)
      (clock interval : ℚ) (n f : Nat),
      co.get_branch n = .ok r →
      ∃ e, pollLoop co bid deadline maxI t clock interval n (f + 1) =
          (some (.error e), t, ⟨1, []⟩) ∧
        ((s = "succeed" ∨ s = "failed") →
          e = .toolExecutionError "Branch status response missing branch identifier.") := by
    intro bid deadline maxI t clock interval n f h1
    by_cases hterm : s = "succeed" ∨ s = "failed"
    · exact ⟨_, by simp [pollLoop, h1, h2, hterm, recordBranchFromStatus, h3], fun _ => rfl⟩
    · by_cases hdl : deadline ≤ clock + co.get_branch_dur n
      · exact ⟨.toolExecutionError (timeoutMsg bid s),
          by simp [pollLoop, h1, h2, hterm, hdl], fun c => absurd c hterm⟩
      · exact ⟨_, by simp [pollLoop, h1, h2, hterm, hdl, recordBranchFromStatus, h3],
          fun _ => rfl⟩
  refine ⟨?_, ?_, ?_⟩
  · intro bid deadline maxI t clock interval n f h1
    obtain ⟨e, he, _⟩ := step bid deadline maxI t clock interval n f h1
    exact ⟨e, he⟩
  · intro bid deadline maxI t clock interval n f h1 hterm
    obtain ⟨e, he, hmsg⟩ := step bid deadline maxI t clock interval n f h1
    rw [hmsg hterm] at he
    exact he
  · intro cfg fs bid T P M f t h1 hbid hbid' hT hT0 hP hP0 hM hMP
    obtain ⟨e, he, _⟩ := step bid T M t 0 P 0 f h1
    refine ⟨toolErrMessage e, ?_⟩
    simp [ToolHandler.handle,
      checkStatus_valid co (f + 1) t fs bid T P M hbid hbid' hT hT0 hP hP0 hM hMP, he]

/-- C10 witness: terminal response `{"status": "failed", "detail": "gone"}`
without any id. -/
theorem c10_witness :
    pollLoop oracleNoId "b-3" 100 30 (BranchTracker.init none) 0 3 0 (4 + 1) =
      (some (.error (.toolExecutionError "Branch status response missing branch identifier.")),
       BranchTracker.init none, ⟨1, []⟩) :=
  (c10_status_requires_id oracleNoId respNoId "failed" rfl rfl).2.1 "b-3" 100 30
    (BranchTracker.init none) 0 3 0 4 rfl (Or.inr rfl)

/-! ## Terminal statuses of the poller -/

/-- C1 counterexample: a response whose normalized status is `"succeeded"`
(with an extractable id) is NOT treated as terminal — with a 5s timeout and
a 10s fetch the poller raises the timeout `ToolExecutionError` instead of
recording the id and returning the response. -/
theorem c1_counterexample :
    respStatus respSucceeded = .ok "succeeded" ∧
    extractBranchId respSucceeded = some "B1" ∧
    checkStatus oracleSucceeded 3 (BranchTracker.init none) argsTimeout5 =
      (some (.error (.toolExecutionError
        "Timed out waiting for branch b-1 to finish. Last status=succeeded.")),
       BranchTracker.init none, ⟨1, []⟩) :=
  ⟨rfl, rfl, rfl⟩

/-- C1 (amended): the normalized statuses the poller treats as terminal are
exactly `"succeed"` and `"failed"` (not `"succeeded"`); on either one, when
the response carries an extractable identifier, the poller records it into
the tracker and returns the full response — neither terminal status is a
poller error. -/
theorem c1_amended_terminal_statuses (co : ClientOracle) (bid : String)
    (deadline maxI : ℚ) (t : BranchTracker) (clock interval : ℚ) (n f : Nat)
    (r : JVal) (s b : String)
    (h1 : co.get_branch n = .ok r) (h2 : respStatus r = .ok s)
    (h3 : s = "succeed" ∨ s = "failed") (h4 : extractBranchId r = some b) :
    pollLoop co bid deadline maxI t clock interval n (f + 1) =
      (some (.ok r), t.record (.str b), ⟨1, []⟩) := by
  simp [pollLoop, h1, h2, h3, recordBranchFromStatus, h4]

/-- C1 witness: status `" SUCCEED "` normalizes to the terminal `"succeed"`;
the id `B7` is recorded and the response returned. -/
theorem c1_witness :
    respStatus respSucceed = .ok "succeed" ∧
    pollLoop oracleSucceed "B7" 100 30 (BranchTracker.init none) 0 3 0 (2 + 1) =
      (some (.ok respSucceed), (BranchTracker.init none).record (.str "B7"), ⟨1, []⟩) :=
  ⟨rfl, c1_amended_terminal_statuses oracleSucceed "B7" 100 30 (BranchTracker.init none)
    0 3 0 2 respSucceed "succeed" "B7" rfl rfl (Or.inl rfl) rfl⟩

/-! ## RPC client: protocol errors are retried -/

theorem callLoop_protocol_error (attempts : Nat → Attempt) (errs : Nat → JVal)
    (rid : Nat) (h : ∀ k, attemptEval (attempts k) = .error (.mcpError (errs k))) :
    ∀ (m i : Nat) (last : Option PyExc),
      callLoop attempts rid i last (m + 1) =
        (.error (.mcpError (errs (i + m))), List.replicate (m + 1) rid,
         (List.range m).map (fun j => 2 ^ (i + j))) := by
  intro m
  induction m with
  | zero =>
    intro i last
    simp [callLoop, h i]
  | succ m ih =>
    intro i last
    have hrec := ih (i + 1) (some (.mcpError (errs i)))
    have hidx : i + 1 + m = i + (m + 1) := by omega
    rw [hidx] at hrec
    have hfun : (fun j => (2 : Nat) ^ (i + 1 + j)) = ((fun j => 2 ^ (i + j)) ∘ Nat.succ) := by
      funext j
      simp only [Function.comp]
      congr 1
      omega
    simp only [callLoop, h i, hrec, List.replicate_succ, List.range_succ_eq_map,
      List.map_cons, List.map_map, hfun]
    simp [Nat.add_zero]

/-- C2 counterexample: every attempt decodes to a body with an `error`
member (`{"error": "boom"}`); with `max_retries = 3` the client nevertheless
performs 3 attempts with backoff sleeps `[1, 2]` before raising the
protocol error — so a protocol error does NOT end the call on the attempt
that received it. -/
theorem c2_counterexample :
    attemptEval (attemptsProtocolError 0) = .error (.mcpError (.str "boom")) ∧
    mcpCall ⟨0⟩ attemptsProtocolError 3 =
      ⟨⟨1⟩, .error (.mcpError (.str "boom")), [1, 1, 1], [1, 2]⟩ ∧
    ([1, 2] : List Nat) ≠ [] :=
  ⟨rfl, rfl, by decide⟩

/-- C2 (amended): a decoded body containing an `error` member raises
`MCPError`, but the broad `except` of the retry loop catches it like any
transport failure: each non-final attempt sleeps `2^attempt` and retries,
and only the final attempt's protocol error is raised to the caller (all
attempts reuse the one envelope id built before the loop). -/
theorem c2_amended_protocol_error_retried (attempts : Nat → Attempt)
    (errs : Nat → JVal) (m : Nat) (st : MCPState)
    (h : ∀ k, attemptEval (attempts k) = .error (.mcpError (errs k))) :
    mcpCall st attempts (m + 1) =
      ⟨⟨st.request_id + 1⟩, .error (.mcpError (errs m)),
       List.replicate (m + 1) (st.request_id + 1),
       (List.range m).map (fun j => 2 ^ j)⟩ := by
  have hc := callLoop_protocol_error attempts errs (st.request_id + 1) h m 0 none
  simp only [Nat.zero_add] at hc
  simp [mcpCall, hc]

/-- C2 witness: the protocol-error oracle with `max_retries = 3`. -/
theorem c2_witness :
    mcpCall ⟨0⟩ attemptsProtocolError (2 + 1) =
      ⟨⟨1⟩, .error (.mcpError (.str "boom")), List.replicate 3 1,
       (List.range 2).map (fun j => 2 ^ j)⟩ :=
  c2_amended_protocol_error_retried attemptsProtocolError (fun _ => .str "boom") 2 ⟨0⟩
    (fun _ => rfl)

/-! ## RPC client: request ids -/

theorem callLoop_sentIds (attempts : Nat → Attempt) (rid : Nat) :
    ∀ (fuel i : Nat) (last : Option PyExc),
      ∀ x ∈ (callLoop attempts rid i last fuel).2.1, x = rid := by
  intro fuel
  induction fuel with
  | zero =>
    intro i last x hx
    simp [callLoop] at hx
  | succ fuel ih =>
    intro i last x hx
    cases hA : attemptEval (attempts i) with
    | ok v =>
      simp [callLoop, hA] at hx
      exact hx
    | error e =>
      cases fuel with
      | zero =>
        simp [callLoop, hA] at hx
        exact hx
      | succ fuel' =>
        rcases hc : callLoop attempts rid (i + 1) (some e) (fuel' + 1) with ⟨res, ids, sl⟩
        simp [callLoop, hA, hc] at hx
        rcases hx with rfl | hx
        · rfl
        · have := ih (i + 1) (some e) x
          rw [hc] at this
          exact this hx

theorem mcpCall_sentIds (st : MCPState) (attempts : Nat → Attempt) (maxR : Nat) :
    ∀ x ∈ (mcpCall st attempts maxR).sentIds, x = st.request_id + 1 := by
  intro x hx
  rcases hc : callLoop attempts (st.request_id + 1) 0 none maxR with ⟨res, ids, sl⟩
  simp [mcpCall, hc] at hx
  have := callLoop_sentIds attempts (st.request_id + 1) maxR 0 none x
  rw [hc] at this
  exact this hx

theorem mcpCall_state (st : MCPState) (attempts : Nat → Attempt) (maxR : Nat) :
    (mcpCall st attempts maxR).state = ⟨st.request_id + 1⟩ := by
  rcases hc : callLoop attempts (st.request_id + 1) 0 none maxR with ⟨res, ids, sl⟩
  simp [mcpCall, hc]

theorem runCalls_sentIds (specs : List ((Nat → Attempt) × Nat)) :
    ∀ (st : MCPState) (i : Nat) (h : i < (runCalls st specs).length),
      ((runCalls st specs).get ⟨i, h⟩).sentIds =
        List.replicate ((runCalls st specs).get ⟨i, h⟩).sentIds.length
          (st.request_id + i + 1) := by
  induction specs with
  | nil =>
    intro st i h
    simp [runCalls] at h
  | cons spec rest ih =>
    intro st i h
    cases i with
    | zero =>
      have hall := mcpCall_sentIds st spec.1 spec.2
      exact List.eq_replicate_of_mem (fun x hx => hall x hx)
    | succ i =>
      have hlen : i < (runCalls (mcpCall st spec.1 spec.2).state rest).length := by
        simpa [runCalls] using h
      have := ih (mcpCall st spec.1 spec.2).state i hlen
      have hst : (mcpCall st spec.1 spec.2).state.request_id = st.request_id + 1 := by
        rw [mcpCall_state]
      rw [hst] at this
      have hidx : st.request_id + 1 + i + 1 = st.request_id + (i + 1) + 1 := by omega
      rw [hidx] at this
      simpa [runCalls] using this

/-- C9: on one client instance the JSON-RPC envelope ids start at 1 and
increase by exactly 1 per `_call`: every envelope sent during the `i`-th
call (0-indexed) carries id `i + 1`, however many retry attempts that call
makes. -/
theorem c9_request_ids (specs : List ((Nat → Attempt) × Nat)) (i : Nat)
    (h : i < (runCalls ⟨0⟩ specs).length) :
    ((runCalls ⟨0⟩ specs).get ⟨i, h⟩).sentIds =
      List.replicate ((runCalls ⟨0⟩ specs).get ⟨i, h⟩).sentIds.length (i + 1) := by
  have := runCalls_sentIds specs ⟨0⟩ i h
  simpa using this

/-- C9 witness: two calls, the second retrying once — its two envelopes both
carry id 2. -/
theorem c9_witness :
    ∃ h : 1 < (runCalls ⟨0⟩ twoCallSpecs).length,
      ((runCalls ⟨0⟩ twoCallSpecs).get ⟨1, h⟩).sentIds =
        List.replicate ((runCalls ⟨0⟩ twoCallSpecs).get ⟨1, h⟩).sentIds.length 2 :=
  ⟨by decide, c9_request_ids twoCallSpecs 1 (by decide)⟩

/-! ## Conversation loop termination -/

theorem parse_final_report_truthy (m : AssistantMsg) (fr : JVal)
    (h : parse_final_report m = some fr) : pyTruthy fr = true := by
  rcases hc : m.content with _ | ⟨raw, parsed⟩
  · simp [parse_final_report, hc] at h
  · rcases parsed with _ | payload
    · simp [parse_final_report, hc] at h
    · rcases payload with _ | _ | _ | _ | _ | _ | fs
      · simp [parse_final_report, hc] at h
      · simp [parse_final_report, hc] at h
      · simp [parse_final_report, hc] at h
      · simp [parse_final_report, hc] at h
      · simp [parse_final_report, hc] at h
      · simp [parse_final_report, hc] at h
      · rcases hv : dictGetD fs "type" .null with _ | _ | _ | _ | sv | _ | _
        · simp [parse_final_report, hc, hv] at h
        · simp [parse_final_report, hc, hv] at h
        · simp [parse_final_report, hc, hv] at h
        · simp [parse_final_report, hc, hv] at h
        · by_cases hsv : sv = "final_report"
          · simp [parse_final_report, hc, hv, hsv] at h
            subst h
            cases fs with
            | nil => simp [dictGetD, dictGet] at hv
            | cons p l => rfl
          · simp [parse_final_report, hc, hv, hsv] at h
        · simp [parse_final_report, hc, hv] at h
        · simp [parse_final_report, hc, hv] at h

/-- C7: in both loop variants, an assistant reply with no tool calls whose
content parses as a `final_report` object ends the loop on that iteration,
returning the parsed object unchanged; a reply that did request tool calls
makes the loop dispatch them and continue — `parse_final_report` never
decides that iteration. -/
theorem c7_final_report_termination {σ : Type} (brain : Nat → AssistantMsg)
    (handler : σ → PyToolCall → JVal × σ) (h : σ) (msgs : List Turn) (i r : Nat) :
    (∀ fr, (brain i).tool_calls = [] → parse_final_report (brain i) = some fr →
      orchestrateFrom brain handler i (r + 1) h msgs = some fr ∧
      chatLoopFrom brain handler i (r + 1) h msgs = some fr) ∧
    (∀ tc rest, (brain i).tool_calls = tc :: rest →
      orchestrateFrom brain handler i (r + 1) h msgs =
        (match dispatchAll handler h (msgs ++ [Turn.assistant (brain i)]) (tc :: rest) with
         | (h', msgs2) => orchestrateFrom brain handler (i + 1) r h' msgs2) ∧
      chatLoopFrom brain handler i (r + 1) h msgs =
        (match dispatchAll handler h (msgs ++ [Turn.assistant (brain i)]) (tc :: rest) with
         | (h', msgs2) => chatLoopFrom brain handler (i + 1) r h' msgs2)) := by
  constructor
  · intro fr h0 hfr
    have htr := parse_final_report_truthy (brain i) fr hfr
    constructor
    · simp [orchestrateFrom, h0, hfr, htr]
    · simp [chatLoopFrom, h0, hfr, htr]
  · intro tc rest h0
    constructor
    · simp [orchestrateFrom, h0]
    · simp [chatLoopFrom, h0]

/-- C7 witness: a scripted conversation — iteration 1 requests a tool call
(final-report-shaped content ignored, dispatch + continue), iteration 2
returns the final report. -/
theorem c7_witness :
    (orchestrateFrom brainScript constHandler 2 (5 + 1) () [] =
      some (.obj [("type", .str "final_report"), ("task", .str "t"), ("summary", .str "s")]) ∧
     chatLoopFrom brainScript constHandler 2 (5 + 1) () [] =
      some (.obj [("type", .str "final_report"), ("task", .str "t"), ("summary", .str "s")])) ∧
    (orchestrateFrom brainScript constHandler 1 (5 + 1) () [] =
      (match dispatchAll constHandler () ([] ++ [Turn.assistant (brainScript 1)])
          ([⟨"call_1", "function", some "read_artifact", .parsed (.obj [])⟩]) with
       | (h', msgs2) => orchestrateFrom brainScript constHandler 2 5 h' msgs2) ∧
     chatLoopFrom brainScript constHandler 1 (5 + 1) () [] =
      (match dispatchAll constHandler () ([] ++ [Turn.assistant (brainScript 1)])
          ([⟨"call_1", "function", some "read_artifact", .parsed (.obj [])⟩]) with
       | (h', msgs2) => chatLoopFrom brainScript constHandler 2 5 h' msgs2)) :=
  ⟨(c7_final_report_termination brainScript constHandler () [] 2 5).1
      (.obj [("type", .str "final_report"), ("task", .str "t"), ("summary", .str "s")]) rfl rfl,
   (c7_final_report_termination brainScript constHandler () [] 1 5).2
      ⟨"call_1", "function", some "read_artifact", .parsed (.obj [])⟩ [] rfl⟩

/-! ## Poller backoff and deadline -/

theorem pyMin_eq_min (a b : ℚ) : pyMin a b = min a b := by
  unfold pyMin
  rcases lt_or_le b a with hlt | hle
  · rw [if_pos hlt, min_eq_right hlt.le]
  · rw [if_neg (not_lt.mpr hle), min_eq_left hle]

theorem intervalSeq_le_max (P M : ℚ) (hPM : P ≤ M) : ∀ k, intervalSeq P M k ≤ M
  | 0 => hPM
  | k + 1 => by
    rw [intervalSeq, pyMin_eq_min]
    exact min_le_right _ _

theorem le_intervalSeq (P M : ℚ) (hP : 0 ≤ P) (hPM : P ≤ M) : ∀ k, P ≤ intervalSeq P M k
  | 0 => le_refl P
  | k + 1 => by
    rw [intervalSeq, pyMin_eq_min, le_min_iff]
    have hk := le_intervalSeq P M hP hPM k
    exact ⟨by linarith, hPM⟩

theorem intervalSeq_mono (P M : ℚ) (hP : 0 ≤ P) (hPM : P ≤ M) (k : Nat) :
    intervalSeq P M k ≤ intervalSeq P M (k + 1) := by
  rw [intervalSeq, pyMin_eq_min, le_min_iff]
  have hk : 0 ≤ intervalSeq P M k := le_trans hP (le_intervalSeq P M hP hPM k)
  exact ⟨by linarith, intervalSeq_le_max P M hPM k⟩

/-- One loop iteration, unfolded. -/
theorem pollLoop_succ (co : ClientOracle) (bid : String) (deadline maxI : ℚ)
    (t : BranchTracker) (clock interval : ℚ) (n fuel : Nat) :
    pollLoop co bid deadline maxI t clock interval n (fuel + 1) =
      match co.get_branch n with
      | .error e => (some (.error (.unexpected e)), t, ⟨1, []⟩)
      | .ok response =>
        match respStatus response with
        | .error e => (some (.error e), t, ⟨1, []⟩)
        | .ok status =>
          if status = "succeed" ∨ status = "failed" then
            match recordBranchFromStatus t response with
            | .error e => (some (.error e), t, ⟨1, []⟩)
            | .ok t' => (some (.ok response), t', ⟨1, []⟩)
          else if deadline ≤ clock + co.get_branch_dur n then
            (some (.error (.toolExecutionError (timeoutMsg bid status))), t, ⟨1, []⟩)
          else
            match recordBranchFromStatus t response with
            | .error e => (some (.error e), t, ⟨1, []⟩)
            | .ok t' =>
              match pollLoop co bid deadline maxI t' (clock + co.get_branch_dur n + interval)
                  (pyMin (interval * (3 / 2)) maxI) (n + 1) fuel with
              | (res, t'', tr) => (res, t'', ⟨tr.fetches + 1, interval :: tr.sleeps⟩) := rfl

/-- If every status fetch answers a non-terminal status with an extractable
id, the polling loop reaches the deadline and raises the timeout error after
finitely many fetches; the sleeps taken are an initial run of the interval
sequence. -/
theorem pollLoop_times_out (co : ClientOracle) (r : Nat → JVal) (s : Nat → String)
    (bid : String) (deadline M P : ℚ)
    (hresp : ∀ k, co.get_branch k = .ok (r k))
    (hstat : ∀ k, respStatus (r k) = .ok (s k))
    (hnont : ∀ k, ¬ (s k = "succeed" ∨ s k = "failed"))
    (hid : ∀ k, (extractBranchId (r k)).isSome = true)
    (hdur : ∀ k, 0 ≤ co.get_branch_dur k)
    (hP : 0 < P) (hPM : P ≤ M) :
    ∀ (f : Nat) (t : BranchTracker) (clock : ℚ) (j n : Nat),
      deadline ≤ clock + (f : ℚ) * P →
      ∃ (m k : Nat) (t' : BranchTracker),
        pollLoop co bid deadline M t clock (intervalSeq P M j) n (f + 1) =
          (some (.error (.toolExecutionError (timeoutMsg bid (s k)))), t',
           ⟨m + 1, (List.range m).map (fun x => intervalSeq P M (j + x))⟩) := by
  intro f
  induction f with
  | zero =>
    intro t clock j n hdead
    refine ⟨0, n, t, ?_⟩
    have hdl : deadline ≤ clock + co.get_branch_dur n := by
      have h1 := hdur n
      have h2 : deadline ≤ clock := by
        have : ((0 : Nat) : ℚ) * P = 0 := by norm_num
        rw [this, add_zero] at hdead
        exact hdead
      linarith
    simp [pollLoop, hresp n, hstat n, hnont n, hdl]
  | succ f ih =>
    intro t clock j n hdead
    by_cases hdl : deadline ≤ clock + co.get_branch_dur n
    · refine ⟨0, n, t, ?_⟩
      simp [pollLoop, hresp n, hstat n, hnont n, hdl]
    · obtain ⟨b, hb⟩ := Option.isSome_iff_exists.mp (hid n)
      have hrecord : recordBranchFromStatus t (r n) = .ok (t.record (.str b)) := by
        simp [recordBranchFromStatus, hb]
      have hnext :
          deadline ≤ (clock + co.get_branch_dur n + intervalSeq P M j) + (f : ℚ) * P := by
        have h1 : P ≤ intervalSeq P M j := le_intervalSeq P M hP.le hPM j
        have h2 : 0 ≤ co.get_branch_dur n := hdur n
        have h3 : ((f + 1 : Nat) : ℚ) * P = (f : ℚ) * P + P := by push_cast; ring
        rw [h3] at hdead
        linarith
      obtain ⟨m, k, t', hrec⟩ := ih (t.record (.str b))
        (clock + co.get_branch_dur n + intervalSeq P M j) (j + 1) (n + 1) hnext
      refine ⟨m + 1, k, t', ?_⟩
      have hlist :
          intervalSeq P M j :: (List.range m).map (fun x => intervalSeq P M (j + 1 + x)) =
            (List.range (m + 1)).map (fun x => intervalSeq P M (j + x)) := by
        rw [List.range_succ_eq_map, List.map_cons, List.map_map]
        have hf : ((fun x => intervalSeq P M (j + x)) ∘ Nat.succ) =
            (fun x => intervalSeq P M (j + 1 + x)) := by
          funext x
          simp only [Function.comp]
          congr 1
          omega
        rw [hf]
        simp
      have hstep :
          pollLoop co bid deadline M t clock (intervalSeq P M j) n (f + 1 + 1) =
            (some (.error (.toolExecutionError (timeoutMsg bid (s k)))), t',
             ⟨m + 1 + 1, intervalSeq P M j ::
               (List.range m).map (fun x => intervalSeq P M (j + 1 + x))⟩) := by
        have hiv : pyMin (intervalSeq P M j * (3 / 2)) M = intervalSeq P M (j + 1) := rfl
        rw [pollLoop_succ]
        simp [hresp n, hstat n, hnont n, hdl, hrecord, hiv, hrec]
      rw [hstep, hlist]

/-- C4 (claim): with valid arguments the sleep sequence starts at the poll
interval and each subsequent interval is `min(1.5 × previous, max)` — hence
non-decreasing and bounded by the max — and when the endpoint never answers
a terminal status the operation raises the timeout `ToolExecutionError`
naming the identifier and a last observed status, after finitely many
fetches. -/
theorem c4_poller_backoff_and_timeout (co : ClientOracle) (r : Nat → JVal)
    (s : Nat → String) (fs : List (String × JVal)) (bid : String) (T P M : ℚ)
    (t : BranchTracker)
    (hbid : dictGetD fs "branch_id" .null = .str bid) (hbid' : bid ≠ "")
    (hT : pyNum? (dictGetD fs "timeout_seconds" (.int 1800)) = some T) (hT0 : 0 < T)
    (hP : pyNum? (dictGetD fs "poll_interval_seconds" (.flt 3)) = some P) (hP0 : 0 < P)
    (hM : pyNum? (dictGetD fs "max_poll_interval_seconds" (.flt 30)) = some M)
    (hPM : P ≤ M)
    (hresp : ∀ k, co.get_branch k = .ok (r k))
    (hstat : ∀ k, respStatus (r k) = .ok (s k))
    (hnont : ∀ k, ¬ (s k = "succeed" ∨ s k = "failed"))
    (hid : ∀ k, (extractBranchId (r k)).isSome = true)
    (hdur : ∀ k, 0 ≤ co.get_branch_dur k) :
    ∃ (fuel m k : Nat) (t' : BranchTracker),
      checkStatus co fuel t (.obj fs) =
        (some (.error (.toolExecutionError (timeoutMsg bid (s k)))), t',
         ⟨m + 1, (List.range m).map (intervalSeq P M)⟩) ∧
      intervalSeq P M 0 = P ∧
      (∀ i, intervalSeq P M (i + 1) = pyMin (intervalSeq P M i * (3 / 2)) M) ∧
      (∀ i, intervalSeq P M i ≤ intervalSeq P M (i + 1)) ∧
      (∀ i, intervalSeq P M i ≤ M) := by
  have hfP : T ≤ ((Nat.ceil (T / P) : Nat) : ℚ) * P := by
    have hc := Nat.le_ceil (T / P)
    exact (div_le_iff₀ hP0).mp hc
  obtain ⟨m, k, t', hrun⟩ := pollLoop_times_out co r s bid T M P hresp hstat hnont hid hdur
    hP0 hPM (Nat.ceil (T / P)) t 0 0 0 (by simpa using hfP)
  refine ⟨Nat.ceil (T / P) + 1, m, k, t', ?_, rfl, fun i => rfl,
    intervalSeq_mono P M hP0.le hPM, intervalSeq_le_max P M hPM⟩
  rw [checkStatus_valid co (Nat.ceil (T / P) + 1) t fs bid T P M hbid hbid' hT
    (not_le.mpr hT0) hP (not_le.mpr hP0) hM (not_lt.mpr hPM)]
  have hmap : (fun x => intervalSeq P M (0 + x)) = intervalSeq P M := by
    funext x
    rw [Nat.zero_add]
  rw [hmap] at hrun
  exact hrun

/-- C4 witness: `timeout=5`, `poll=2`, `max=30` against an endpoint that
always answers `running`. -/
theorem c4_witness :
    ∃ (fuel m k : Nat) (t' : BranchTracker),
      checkStatus oracleRunning fuel (BranchTracker.init none)
        (.obj [("branch_id", .str "b-9"), ("timeout_seconds", .int 5),
               ("poll_interval_seconds", .int 2), ("max_poll_interval_seconds", .int 30)]) =
        (some (.error (.toolExecutionError (timeoutMsg "b-9" "running"))), t',
         ⟨m + 1, (List.range m).map (intervalSeq 2 30)⟩) ∧
      intervalSeq 2 30 0 = 2 ∧
      (∀ i, intervalSeq 2 30 (i + 1) = pyMin (intervalSeq 2 30 i * (3 / 2)) 30) ∧
      (∀ i, intervalSeq 2 30 i ≤ intervalSeq 2 30 (i + 1)) ∧
      (∀ i, intervalSeq 2 30 i ≤ 30) :=
  c4_poller_backoff_and_timeout oracleRunning (fun _ => respRunning) (fun _ => "running")
    [("branch_id", .str "b-9"), ("timeout_seconds", .int 5),
     ("poll_interval_seconds", .int 2), ("max_poll_interval_seconds", .int 30)]
    "b-9" 5 2 30 (BranchTracker.init none)
    rfl (by decide) rfl (by norm_num) rfl (by norm_num) rfl (by norm_num)
    (fun _ => rfl) (fun _ => rfl)
    (fun _ => (by decide : ¬("running" = "succeed" ∨ "running" = "failed")))
    (fun _ => rfl) (fun _ => le_refl 0)

end ClaimTheorems

end DevAgent
